import Mathlib

/-
Verification development for the SocialModel graph construction in
`src/model.py` (Social LSTM).  The forward unroll, the per-frame decoder
protocol and the loss aggregation of `SocialModel.__init__` are embedded
shallowly: tensors become nested lists of exact rationals, the per-frame
loop becomes a fold over `List.range (trajectory_size - 1)`, and the
pluggable collaborators (helper, pooling module, position estimator, loss
function) become function-valued fields.  The LSTM cell's sigmoid/tanh
nonlinearities are kept as abstract scalar functions inside the cell
parameters: every claim proved here is insensitive to the concrete
nonlinearity, only to the shapes and to the dataflow.
-/

namespace SocialLSTM

/-- Dot product of two rational vectors (`zipWith` truncates to the shorter
operand, matching the convention used throughout this embedding). -/
def dot (x y : List ℚ) : ℚ := (List.zipWith (fun a b => a * b) x y).sum

/-- ReLU activation, `tf.nn.relu`. -/
def relu (q : ℚ) : ℚ := max 0 q

/-- `tf.layers.Dense`: an affine map followed by an elementwise activation.
The kernel is stored as one row per output unit, so the output width is the
number of kernel rows. -/
structure Dense where
  kernel : List (List ℚ)
  bias : List ℚ
  activation : ℚ → ℚ

/-- Apply a dense layer to a single input vector. -/
def Dense.apply (d : Dense) (x : List ℚ) : List ℚ :=
  List.zipWith (fun r b => d.activation (dot r x + b)) d.kernel d.bias

/-- Apply a dense layer to a batch (one row per pedestrian slot). -/
def Dense.applyBatch (d : Dense) (xs : List (List ℚ)) : List (List ℚ) :=
  xs.map d.apply

/-- Parameters of `tf.nn.rnn_cell.LSTMCell(lstm_size)`.  TensorFlow stores a
single kernel of shape `[input + lstm_size, 4 * lstm_size]`; here the four
gate blocks (input, forget, output, candidate) are kept as separate row-major
matrices, which is the same parameter set.  The sigmoid and tanh
nonlinearities are abstract scalar functions: none of the proved properties
depends on their concrete (floating-point) values. -/
structure LSTMCellParams where
  wi : List (List ℚ)
  wf : List (List ℚ)
  wo : List (List ℚ)
  wg : List (List ℚ)
  bi : List ℚ
  bf : List ℚ
  bo : List ℚ
  bg : List ℚ
  sigm : ℚ → ℚ
  tanh : ℚ → ℚ

/-- One LSTM gate: affine map of the concatenated `[x; h]` vector followed by
the gate activation. -/
def gate (w : List (List ℚ)) (b : List ℚ) (act : ℚ → ℚ) (z : List ℚ) : List ℚ :=
  (List.zipWith (fun a c => a + c) (w.map (dot z)) b).map act

/-- One step of the LSTM cell on a single pedestrian slot: standard LSTM
equations over the concatenation of the input with the previous hidden
vector; returns the new (cell memory, hidden) pair. -/
def lstmStep (p : LSTMCellParams) (x c h : List ℚ) : List ℚ × List ℚ :=
  let z := x ++ h
  let i := gate p.wi p.bi p.sigm z
  let f := gate p.wf p.bf p.sigm z
  let o := gate p.wo p.bo p.sigm z
  let g := gate p.wg p.bg p.tanh z
  let c2 := List.zipWith (fun a b => a + b)
      (List.zipWith (fun a b => a * b) f c)
      (List.zipWith (fun a b => a * b) i g)
  let h2 := List.zipWith (fun a b => a * b) o (c2.map p.tanh)
  (c2, h2)

/-- Per-slot LSTM state: one (cell memory, hidden) pair per pedestrian slot,
`LSTMStateTuple` batched over `max_num_ped`. -/
abbrev LSTMState := List (List ℚ × List ℚ)

/-- `cell.zero_state(max_num_ped, tf.float32)`: all-zero state for every
slot. -/
def zeroState (n size : ℕ) : LSTMState :=
  List.replicate n (List.replicate size 0, List.replicate size 0)

/-- The pluggable collaborators handed to `SocialModel.__init__`.  The helper
signature follows the spec's interface list: frame index, previously
predicted embedding (`none` when absent), current ground-truth embedding. -/
structure Collaborators where
  helper : ℕ → Option (List (List ℚ)) → List (List ℚ) → List (List ℚ)
  pooling_module : Option (List (List ℚ) → List (List Bool) → List (List ℚ))
  position_estimate : List (List ℚ) → List (List ℚ) → ℕ → Dense →
      List (List ℚ) × List (List ℚ)
  loss_function : List (List (List ℚ)) → ℚ

/-- Construction-time configuration of `SocialModel`: the scalar
hyperparameters plus the trainable parameters of the LSTM cell and of the
two dense layers (`Coordinates/Layer` with ReLU activation,
`Position_estimation/Layer` linear). -/
structure ModelConfig where
  lstm_size : ℕ
  max_num_ped : ℕ
  prediction_time : ℕ
  trajectory_size : ℕ
  embedding_size : ℕ
  l2_norm : ℚ
  cellParams : LSTMCellParams
  coordinates_kernel : List (List ℚ)
  coordinates_bias : List ℚ
  output_kernel : List (List ℚ)
  output_bias : List ℚ

/-- The shared coordinate-embedding layer (`self.coordinates_layer`),
ReLU-activated. -/
def coordinatesLayerOf (cfg : ModelConfig) : Dense :=
  ⟨cfg.coordinates_kernel, cfg.coordinates_bias, relu⟩

/-- The output projection layer (`self.output_layer`), linear. -/
def outputLayerOf (cfg : ModelConfig) : Dense :=
  ⟨cfg.output_kernel, cfg.output_bias, fun q => q⟩

/-- `output_size = 5` in `SocialModel.__init__`. -/
def output_size : ℕ := 5

/-- Per-frame neighbor masks, `[max_num_ped, max_num_ped, trajectory_size]`. -/
abbrev MaskTensor := List (List (List Bool))

/-- The five dataset tensors consumed by the model
(`dataset.tensors[0] .. dataset.tensors[4]`). -/
structure ModelInputs where
  input_data : List (List (List ℚ))
  peds_mask : MaskTensor
  num_peds_frame : ℕ
  all_peds : List (List (List ℚ))
  all_peds_mask : MaskTensor

/-- `tensor[:, frame]`: the per-slot 2D coordinate at one frame. -/
def frameSlice (t : List (List (List ℚ))) (frame : ℕ) : List (List ℚ) :=
  t.map (fun traj => traj.getD frame [])

/-- `mask[:, :, frame]`: the per-frame square neighbor mask. -/
def maskSlice (m : MaskTensor) (frame : ℕ) : List (List Bool) :=
  m.map (fun row => row.map (fun col => col.getD frame false))

/-- Modelled from the spec: the argument record `trajectory_decoders.SocialDecoder`
receives from the per-frame call in `model.py` (lines 125-134).  The module
`trajectory_decoders` is imported by `model.py` but its source is not part of
this repository snapshot, so the decoder protocol is modelled from spec
section 4.3. -/
structure DecoderArgs where
  frame : ℕ
  coordinates_preprocessed : List (List ℚ)
  new_coordinates_processed : Option (List (List ℚ))
  cell_states : LSTMState
  all_peds_preprocessed : List (List ℚ)
  hidden_states : List (List ℚ)
  peds_mask : List (List Bool)
  all_peds_mask : List (List Bool)

/-- Modelled from the spec: input selection and optional context pooling of
the Step Decoder (spec 4.3, steps 1-2).  The helper chooses the per-slot
embedding from the ground-truth embedding and the previous prediction
embedding; when a pooling module is configured its context vector, computed
from the current hidden states and the frame's neighbor mask, is
concatenated to the chosen embedding. -/
def decoderCellInput (col : Collaborators) (a : DecoderArgs) : List (List ℚ) :=
  let chosen := col.helper a.frame a.new_coordinates_processed a.coordinates_preprocessed
  match col.pooling_module with
  | none => chosen
  | some pm =>
      List.zipWith (fun e ctx => e ++ ctx) chosen (pm a.hidden_states a.peds_mask)

/-- Result of one decoder step: `cell_output, cell_states, layered_output`
as returned by `decoder.step()` in `model.py` line 139. -/
structure DecoderStepOut where
  cell_output : List (List ℚ)
  cell_states : LSTMState
  layered_output : List (List ℚ)

/-- Modelled from the spec: one Step Decoder transition (spec 4.3,
steps 1-4): select the input, advance every slot's LSTM cell one step, and
project the new hidden outputs through the output layer. -/
def decoderStep (p : LSTMCellParams) (outLayer : Dense) (col : Collaborators)
    (a : DecoderArgs) : DecoderStepOut :=
  let inp := decoderCellInput col a
  let stepped := List.zipWith
      (fun x (st : List ℚ × List ℚ) => lstmStep p x st.1 st.2) inp a.cell_states
  let cellOut := stepped.map (fun st => st.2)
  ⟨cellOut, stepped, outLayer.applyBatch cellOut⟩

/-- The loop-carried state of the unroll in `model.py` lines 66-71:
the accumulated prediction list, the previously predicted embedding
(`new_coordinates_processed`, `None` before the first frame), the current
hidden outputs (`cell_output`) and the LSTM states (`self.cell_states`). -/
structure UnrollState where
  new_coordinates : List (List (List ℚ))
  new_coordinates_processed : Option (List (List ℚ))
  cell_output : List (List ℚ)
  cell_states : LSTMState

/-- The state before the first frame: empty prediction list, no previous
prediction, all-zero hidden outputs (`tf.zeros([max_num_ped, lstm_size])`)
and the cell's zero state. -/
def initState (cfg : ModelConfig) : UnrollState :=
  { new_coordinates := []
    new_coordinates_processed := none
    cell_output := List.replicate cfg.max_num_ped (List.replicate cfg.lstm_size 0)
    cell_states := zeroState cfg.max_num_ped cfg.lstm_size }

/-- The argument record passed to `decoder.initialize` at one frame
(`model.py` lines 115-134): ground-truth and neighbor coordinates embedded
through the shared coordinates layer, the previous prediction embedding, the
threaded LSTM states, the current hidden outputs, and the frame's masks. -/
def decoderArgsAt (cfg : ModelConfig) (inp : ModelInputs) (st : UnrollState)
    (frame : ℕ) : DecoderArgs :=
  { frame := frame
    coordinates_preprocessed :=
      (coordinatesLayerOf cfg).applyBatch (frameSlice inp.input_data frame)
    new_coordinates_processed := st.new_coordinates_processed
    cell_states := st.cell_states
    all_peds_preprocessed :=
      (coordinatesLayerOf cfg).applyBatch (frameSlice inp.all_peds frame)
    hidden_states := st.cell_output
    peds_mask := maskSlice inp.peds_mask frame
    all_peds_mask := maskSlice inp.all_peds_mask frame }

/-- The `position_estimate` call at one frame (`model.py` lines 142-147):
it receives the decoder's layered output, the real coordinates of the next
frame, `output_size` and the shared coordinates layer, and returns the new
prediction together with its embedding for the next step. -/
def positionEstimateAt (cfg : ModelConfig) (col : Collaborators)
    (inp : ModelInputs) (st : UnrollState) (frame : ℕ) :
    List (List ℚ) × List (List ℚ) :=
  col.position_estimate
    (decoderStep cfg.cellParams (outputLayerOf cfg) col
      (decoderArgsAt cfg inp st frame)).layered_output
    (frameSlice inp.input_data (frame + 1)) output_size (coordinatesLayerOf cfg)

/-- One iteration of the frame loop (`model.py` lines 114-150): run the
decoder, estimate the next position, append the prediction and thread the
state forward. -/
def frameStep (cfg : ModelConfig) (col : Collaborators) (inp : ModelInputs)
    (st : UnrollState) (frame : ℕ) : UnrollState :=
  let d := decoderStep cfg.cellParams (outputLayerOf cfg) col
      (decoderArgsAt cfg inp st frame)
  let pe := positionEstimateAt cfg col inp st frame
  { new_coordinates := st.new_coordinates ++ [pe.1]
    new_coordinates_processed := some pe.2
    cell_output := d.cell_output
    cell_states := d.cell_states }

/-- The unroll state after the first `k` frames of the loop. -/
def unrollTo (cfg : ModelConfig) (col : Collaborators) (inp : ModelInputs)
    (k : ℕ) : UnrollState :=
  (List.range k).foldl (frameStep cfg col inp) (initState cfg)

/-- Python slice `l[-p:]` (as applied to the leading axis of the stacked
tensor in `model.py` line 157): for `p = 0` the slice `[-0:]` is `[0:]`,
the whole list; otherwise the last `min p l.length` elements. -/
def pySliceLast {α : Type} (p : ℕ) (l : List α) : List α :=
  if p = 0 then l else l.drop (l.length - p)

/-- The loss slice `new_coordinates[-prediction_time:, :num_peds_frame]`
(`model.py` line 157). -/
def lossSlice (p n : ℕ) (stacked : List (List (List ℚ))) :
    List (List (List ℚ)) :=
  (pySliceLast p stacked).map (fun row => row.take n)

/-- `tf.nn.l2_loss(v)`: half the sum of the squared entries. -/
def l2_loss (v : List ℚ) : ℚ := ((v.map (fun x => x * x)).sum) / 2

/-- Sum of squared entries (the full squared Frobenius norm) of a flattened
tensor. -/
def sumSq (v : List ℚ) : ℚ := (v.map (fun x => x * x)).sum

/-- Whether a variable name contains the substring `bias`
(the test `"bias" not in v.name` of `model.py` line 164, negated). -/
def containsBias (s : String) : Bool :=
  s.toList.tails.any (fun t => ("bias".toList).isPrefixOf t)

/-- The flattened combined LSTM kernel (the single trainable kernel of
`tf.nn.rnn_cell.LSTMCell`, whose four gate blocks are kept separate in
`LSTMCellParams`). -/
def cellKernel (p : LSTMCellParams) : List ℚ :=
  (p.wi ++ p.wf ++ p.wo ++ p.wg).flatten

/-- The combined LSTM bias. -/
def cellBias (p : LSTMCellParams) : List ℚ :=
  p.bi ++ p.bf ++ p.bo ++ p.bg

/-- `tf.trainable_variables()` for this graph: the LSTM cell kernel and
bias (scope `LSTM/Cell`), and the kernel and bias of the two dense layers.
`global_step` is created with `trainable=False` and is excluded. -/
def tvarsOf (cfg : ModelConfig) : List (String × List ℚ) :=
  [("LSTM/Cell/kernel:0", cellKernel cfg.cellParams),
   ("LSTM/Cell/bias:0", cellBias cfg.cellParams),
   ("Coordinates/Layer/kernel:0", cfg.coordinates_kernel.flatten),
   ("Coordinates/Layer/bias:0", cfg.coordinates_bias),
   ("Position_estimation/Layer/kernel:0", cfg.output_kernel.flatten),
   ("Position_estimation/Layer/bias:0", cfg.output_bias)]

/-- The L2 regularization term (`model.py` lines 162-166):
`tf.add_n([tf.nn.l2_loss(v) for v in tvars if "bias" not in v.name]) * l2_norm`. -/
def regTerm (tvars : List (String × List ℚ)) (l2_norm : ℚ) : ℚ :=
  (((tvars.filter (fun v => !containsBias v.1)).map (fun v => l2_loss v.2)).sum)
    * l2_norm

/-- The loss aggregation of `model.py` lines 155-167: the external loss
function on the slice, divided by the active pedestrian count cast to a
scalar, plus the regularization term. -/
def lossAggregate (cfg : ModelConfig) (lossFn : List (List (List ℚ)) → ℚ)
    (n : ℕ) (stacked : List (List (List ℚ))) : ℚ :=
  lossFn (lossSlice cfg.prediction_time n stacked) / (n : ℚ)
    + regTerm (tvarsOf cfg) cfg.l2_norm

/-- The outputs of the graph construction that the claims are about. -/
structure SocialModelResult where
  new_coordinates : List (List (List ℚ))
  loss : ℚ

/-- The `SocialModel` forward construction (`model.py` lines 114-167): run
the frame loop for `trajectory_size - 1` frames, stack the predictions, and
aggregate the loss. -/
def SocialModel (cfg : ModelConfig) (col : Collaborators) (inp : ModelInputs) :
    SocialModelResult :=
  let st := unrollTo cfg col inp (cfg.trajectory_size - 1)
  { new_coordinates := st.new_coordinates
    loss := lossAggregate cfg col.loss_function inp.num_peds_frame st.new_coordinates }

/-- The unroll after zero frames is the initial state. -/
lemma unrollTo_zero (cfg : ModelConfig) (col : Collaborators) (inp : ModelInputs) :
    unrollTo cfg col inp 0 = initState cfg := rfl

/-- Unrolling one more frame applies `frameStep` at that frame. -/
lemma unrollTo_succ (cfg : ModelConfig) (col : Collaborators) (inp : ModelInputs)
    (k : ℕ) :
    unrollTo cfg col inp (k + 1) =
      frameStep cfg col inp (unrollTo cfg col inp k) k := by
  unfold unrollTo
  rw [List.range_succ, List.foldl_append]
  rfl

/-- `frameStep` appends exactly one prediction. -/
lemma frameStep_new_coordinates (cfg : ModelConfig) (col : Collaborators)
    (inp : ModelInputs) (st : UnrollState) (frame : ℕ) :
    (frameStep cfg col inp st frame).new_coordinates =
      st.new_coordinates ++ [(positionEstimateAt cfg col inp st frame).1] := rfl

/-- Closed form of the accumulated prediction list: one entry per frame
index, in frame order. -/
lemma unroll_new_coordinates (cfg : ModelConfig) (col : Collaborators)
    (inp : ModelInputs) (k : ℕ) :
    (unrollTo cfg col inp k).new_coordinates =
      (List.range k).map
        (fun i => (positionEstimateAt cfg col inp (unrollTo cfg col inp i) i).1) := by
  induction k with
  | zero => rfl
  | succ k ih =>
      rw [unrollTo_succ, frameStep_new_coordinates, ih, List.range_succ,
        List.map_append, List.map_singleton]

/-- The stacked prediction list of the full model. -/
lemma socialModel_new_coordinates (cfg : ModelConfig) (col : Collaborators)
    (inp : ModelInputs) :
    (SocialModel cfg col inp).new_coordinates =
      (unrollTo cfg col inp (cfg.trajectory_size - 1)).new_coordinates := rfl

/-- The loss of the full model in terms of the loss aggregation. -/
lemma socialModel_loss (cfg : ModelConfig) (col : Collaborators)
    (inp : ModelInputs) :
    (SocialModel cfg col inp).loss =
      lossAggregate cfg col.loss_function inp.num_peds_frame
        (unrollTo cfg col inp (cfg.trajectory_size - 1)).new_coordinates := rfl

/-- The full unroll produces `trajectory_size - 1` predictions. -/
lemma socialModel_new_coordinates_length (cfg : ModelConfig) (col : Collaborators)
    (inp : ModelInputs) :
    (SocialModel cfg col inp).new_coordinates.length = cfg.trajectory_size - 1 := by
  rw [socialModel_new_coordinates, unroll_new_coordinates, List.length_map,
    List.length_range]

/-- For `1 ≤ p`, the Python slice `l[-p:]` keeps the last `min p l.length`
elements. -/
lemma pySliceLast_length {α : Type} (p : ℕ) (l : List α) (hp : 1 ≤ p) :
    (pySliceLast p l).length = min p l.length := by
  unfold pySliceLast
  rw [if_neg (by omega), List.length_drop]
  omega

/-- When the list is no longer than `p`, the slice `l[-p:]` is the whole
list. -/
lemma pySliceLast_all {α : Type} (p : ℕ) (l : List α) (h : l.length ≤ p) :
    pySliceLast p l = l := by
  unfold pySliceLast
  split
  · rfl
  · rw [Nat.sub_eq_zero_of_le h, List.drop_zero]

/-- Concrete LSTM cell parameters for `lstm_size = 1` with identity
nonlinearities, used by the concrete witnesses. -/
def testCellParams : LSTMCellParams :=
  ⟨[[0]], [[0]], [[0]], [[0]], [0], [0], [0], [0], fun q => q, fun q => q⟩

/-- Concrete minimal model configuration used by the witnesses. -/
def testCfg : ModelConfig :=
  { lstm_size := 1, max_num_ped := 1, prediction_time := 8, trajectory_size := 2,
    embedding_size := 1, l2_norm := 0, cellParams := testCellParams,
    coordinates_kernel := [[1, 1]], coordinates_bias := [0],
    output_kernel := [[1]], output_bias := [0] }

/-- Concrete collaborators used by the witnesses: ground-truth helper, no
pooling, verbatim position estimate, zero loss. -/
def testCol : Collaborators :=
  { helper := fun _ _ real => real
    pooling_module := none
    position_estimate := fun _ next _ _ => (next, next)
    loss_function := fun _ => 0 }

/-- Concrete inputs with one slot and trajectory length 2. -/
def testInp : ModelInputs :=
  { input_data := [[[1, 2], [3, 4]]]
    peds_mask := [[[true, true]]]
    num_peds_frame := 1
    all_peds := [[[1, 2], [3, 4]]]
    all_peds_mask := [[[true, true]]] }

/-- Concrete inputs with one slot and trajectory length 3. -/
def testInp3 : ModelInputs :=
  { input_data := [[[1, 2], [3, 4], [5, 6]]]
    peds_mask := [[[true, true, true]]]
    num_peds_frame := 1
    all_peds := [[[1, 2], [3, 4], [5, 6]]]
    all_peds_mask := [[[true, true, true]]] }

/-- `testCfg` with `prediction_time = 0` and trajectory length 3. -/
def testCfgP0 : ModelConfig :=
  { testCfg with prediction_time := 0, trajectory_size := 3 }

/-- C2: for every input with `trajectory_size ≥ 2`, after a full unroll the
predicted-coordinate sequence contains exactly `trajectory_size - 1`
entries, one appended per frame index in `[0, trajectory_size - 2]`, in
time order. -/
theorem C2_prediction_sequence_length (cfg : ModelConfig) (col : Collaborators)
    (inp : ModelInputs) (h : 2 ≤ cfg.trajectory_size) :
    (SocialModel cfg col inp).new_coordinates.length = cfg.trajectory_size - 1 ∧
    (SocialModel cfg col inp).new_coordinates =
      (List.range (cfg.trajectory_size - 1)).map
        (fun frame =>
          (positionEstimateAt cfg col inp (unrollTo cfg col inp frame) frame).1) := by
  refine ⟨socialModel_new_coordinates_length cfg col inp, ?_⟩
  rw [socialModel_new_coordinates, unroll_new_coordinates]

/-- Witness for C2 at the concrete test configuration. -/
theorem C2_prediction_sequence_length_witness :
    2 ≤ testCfg.trajectory_size ∧
      (SocialModel testCfg testCol testInp).new_coordinates.length =
        testCfg.trajectory_size - 1 :=
  ⟨by decide, (C2_prediction_sequence_length testCfg testCol testInp (by decide)).1⟩

/-- C7: the aggregated loss only reads the first `num_peds_frame` slots of
each stacked step, so any two stacked prediction sequences agreeing on
those slots (and differing arbitrarily in the padding slots) get the same
aggregated loss. -/
theorem C7_padding_slot_invariance (cfg : ModelConfig)
    (lossFn : List (List (List ℚ)) → ℚ) (n : ℕ)
    (s1 s2 : List (List (List ℚ)))
    (h : s1.map (fun row => row.take n) = s2.map (fun row => row.take n)) :
    lossAggregate cfg lossFn n s1 = lossAggregate cfg lossFn n s2 := by
  have hlen : s1.length = s2.length := by
    have hl := congrArg List.length h
    simpa using hl
  have hslice : (pySliceLast cfg.prediction_time s1).map (fun row => row.take n) =
      (pySliceLast cfg.prediction_time s2).map (fun row => row.take n) := by
    unfold pySliceLast
    by_cases hz : cfg.prediction_time = 0
    · simpa [hz] using h
    · rw [if_neg hz, if_neg hz, List.map_drop, List.map_drop, h, hlen]
  unfold lossAggregate lossSlice
  rw [hslice]

/-- Witness for C7: two concrete stacks differing only in slot 1 (outside
the single active slot) aggregate to the same loss. -/
theorem C7_padding_slot_invariance_witness :
    ([[[ (1 : ℚ)], [2]]].map (fun row => row.take 1) =
        ([[[ (1 : ℚ)], [3]]].map (fun row => row.take 1))) ∧
      lossAggregate testCfg (fun s => (s.flatten.flatten).sum) 1 [[[1], [2]]] =
        lossAggregate testCfg (fun s => (s.flatten.flatten).sum) 1 [[[1], [3]]] :=
  ⟨by decide,
    C7_padding_slot_invariance testCfg (fun s => (s.flatten.flatten).sum) 1
      [[[1], [2]]] [[[1], [3]]] (by decide)⟩

/-- C8: the forward construction is a pure function of its inputs: two runs
with the same parameters, collaborators and inputs produce the same
predicted sequence and the same loss. -/
theorem C8_deterministic_forward (cfg : ModelConfig) (col : Collaborators)
    (i1 i2 : ModelInputs) (h : i1 = i2) :
    (SocialModel cfg col i1).new_coordinates =
        (SocialModel cfg col i2).new_coordinates ∧
      (SocialModel cfg col i1).loss = (SocialModel cfg col i2).loss := by
  subst h
  exact ⟨rfl, rfl⟩

/-- Witness for C8 at the concrete test configuration. -/
theorem C8_deterministic_forward_witness :
    testInp = testInp ∧
      ((SocialModel testCfg testCol testInp).new_coordinates =
          (SocialModel testCfg testCol testInp).new_coordinates ∧
        (SocialModel testCfg testCol testInp).loss =
          (SocialModel testCfg testCol testInp).loss) :=
  ⟨rfl, C8_deterministic_forward testCfg testCol testInp testInp rfl⟩

/-- C9 (amended): for `prediction_time ≥ 1` the loss slice keeps
`min prediction_time (trajectory_size - 1)` trailing steps, and when
`trajectory_size - 1 ≤ prediction_time` the slice is the whole stacked
sequence (no error is raised). -/
theorem C9_loss_slice_trailing_steps (cfg : ModelConfig) (col : Collaborators)
    (inp : ModelInputs) (hp : 1 ≤ cfg.prediction_time) :
    (lossSlice cfg.prediction_time inp.num_peds_frame
        (SocialModel cfg col inp).new_coordinates).length =
      min cfg.prediction_time (cfg.trajectory_size - 1) ∧
    (cfg.trajectory_size - 1 ≤ cfg.prediction_time →
      pySliceLast cfg.prediction_time (SocialModel cfg col inp).new_coordinates =
        (SocialModel cfg col inp).new_coordinates) := by
  constructor
  · unfold lossSlice
    rw [List.length_map, pySliceLast_length _ _ hp,
      socialModel_new_coordinates_length]
  · intro h
    exact pySliceLast_all _ _
      (by rw [socialModel_new_coordinates_length]; exact h)

/-- Witness for C9 at the concrete test configuration
(`prediction_time = 8 > trajectory_size - 1 = 1`). -/
theorem C9_loss_slice_trailing_steps_witness :
    1 ≤ testCfg.prediction_time ∧
      (lossSlice testCfg.prediction_time testInp.num_peds_frame
          (SocialModel testCfg testCol testInp).new_coordinates).length =
        min testCfg.prediction_time (testCfg.trajectory_size - 1) :=
  ⟨by decide,
    (C9_loss_slice_trailing_steps testCfg testCol testInp (by decide)).1⟩

/-- C9 counterexample: with `prediction_time = 0` the slice `[-0:]` keeps
all `trajectory_size - 1 = 2` steps, not `min 0 2 = 0` as the claim's
general formula states. -/
theorem C9_min_formula_counterexample :
    (lossSlice testCfgP0.prediction_time testInp3.num_peds_frame
        (SocialModel testCfgP0 testCol testInp3).new_coordinates).length ≠
      min testCfgP0.prediction_time (testCfgP0.trajectory_size - 1) := by
  decide

/-- Modelled from the spec: the reference helper stub that always chooses
the ground-truth embedding (spec section 8: "helper always returns ground
truth"; section 4.3: at `t = 0` it must handle a null previous prediction
and choose ground truth). -/
def ground_truth_helper :
    ℕ → Option (List (List ℚ)) → List (List ℚ) → List (List ℚ) :=
  fun _ _ real => real

/-- C4: at frame 0 the decoder receives `None` as the
previously-predicted-coordinate embedding, with no pooling the helper is
invoked with that null argument, and the reference ground-truth helper stub
returns the ground-truth embedding on a null previous prediction. -/
theorem C4_null_previous_at_frame0 (cfg : ModelConfig) (col : Collaborators)
    (inp : ModelInputs) :
    (decoderArgsAt cfg inp (unrollTo cfg col inp 0) 0).new_coordinates_processed
        = none ∧
    (col.pooling_module = none →
      decoderCellInput col (decoderArgsAt cfg inp (unrollTo cfg col inp 0) 0) =
        col.helper 0 none
          ((coordinatesLayerOf cfg).applyBatch (frameSlice inp.input_data 0))) ∧
    (∀ frame real, ground_truth_helper frame none real = real) := by
  refine ⟨rfl, ?_, fun _ _ => rfl⟩
  intro hnone
  simp [decoderCellInput, hnone, decoderArgsAt, unrollTo, initState]

/-- Witness for C4 at the concrete test configuration. -/
theorem C4_null_previous_at_frame0_witness :
    testCol.pooling_module = none ∧
      decoderCellInput testCol
          (decoderArgsAt testCfg testInp (unrollTo testCfg testCol testInp 0) 0) =
        testCol.helper 0 none
          ((coordinatesLayerOf testCfg).applyBatch (frameSlice testInp.input_data 0)) :=
  ⟨rfl, (C4_null_previous_at_frame0 testCfg testCol testInp).2.1 rfl⟩

/-- A concrete pooling stub returning a zero context of the hidden width. -/
def zeroPool : List (List ℚ) → List (List Bool) → List (List ℚ) :=
  fun h _ => h.map (fun r => r.map (fun _ => 0))

/-- `testCol` with the zero-pooling stub configured. -/
def testColPool : Collaborators :=
  { testCol with pooling_module := some zeroPool }

/-- C10: for every input, the hidden-states tensor handed to the decoder at
frame 0 is the all-zero `[max_num_ped, lstm_size]` tensor, and any
configured pooling module is therefore applied to the zero matrix at the
first step, regardless of the input coordinates. -/
theorem C10_zero_hidden_states_at_frame0 (cfg : ModelConfig)
    (col : Collaborators) (inp : ModelInputs) :
    (decoderArgsAt cfg inp (unrollTo cfg col inp 0) 0).hidden_states =
        List.replicate cfg.max_num_ped (List.replicate cfg.lstm_size 0) ∧
    (∀ pm, col.pooling_module = some pm →
      decoderCellInput col (decoderArgsAt cfg inp (unrollTo cfg col inp 0) 0) =
        List.zipWith (fun e ctx => e ++ ctx)
          (col.helper 0 none
            ((coordinatesLayerOf cfg).applyBatch (frameSlice inp.input_data 0)))
          (pm (List.replicate cfg.max_num_ped (List.replicate cfg.lstm_size 0))
            (maskSlice inp.peds_mask 0))) := by
  refine ⟨rfl, ?_⟩
  intro pm hpm
  simp [decoderCellInput, hpm, decoderArgsAt, unrollTo, initState]

/-- Witness for C10 with the zero-pooling stub configured. -/
theorem C10_zero_hidden_states_at_frame0_witness :
    decoderCellInput testColPool
        (decoderArgsAt testCfg testInp (unrollTo testCfg testColPool testInp 0) 0) =
      List.zipWith (fun e ctx => e ++ ctx)
        (testColPool.helper 0 none
          ((coordinatesLayerOf testCfg).applyBatch (frameSlice testInp.input_data 0)))
        (zeroPool
          (List.replicate testCfg.max_num_ped (List.replicate testCfg.lstm_size 0))
          (maskSlice testInp.peds_mask 0)) :=
  (C10_zero_hidden_states_at_frame0 testCfg testColPool testInp).2 zeroPool rfl

/-- Shape contract on the LSTM cell parameters: every gate block has
`lstm_size` rows and every gate bias has length `lstm_size` (in TensorFlow
this is forced by `LSTMCell(lstm_size)` itself). -/
def CellShaped (L : ℕ) (p : LSTMCellParams) : Prop :=
  p.wi.length = L ∧ p.wf.length = L ∧ p.wo.length = L ∧ p.wg.length = L ∧
  p.bi.length = L ∧ p.bf.length = L ∧ p.bo.length = L ∧ p.bg.length = L

/-- Shape contract on the collaborators (spec section 7: wrong-shaped
collaborator output is a fatal configuration error): helper and pooling
return one row per pedestrian slot. -/
def CollabShaped (N : ℕ) (col : Collaborators) : Prop :=
  (∀ f prev real, (col.helper f prev real).length = N) ∧
  (∀ pm, col.pooling_module = some pm → ∀ h m, (pm h m).length = N)

/-- Shape of the loop-carried recurrent state: `N` slots, every cell-memory
and hidden vector of width `L`, and `N` hidden-output rows of width `L`. -/
def StateShaped (N L : ℕ) (st : UnrollState) : Prop :=
  st.cell_states.length = N ∧
  (∀ s ∈ st.cell_states, s.1.length = L ∧ s.2.length = L) ∧
  st.cell_output.length = N ∧
  (∀ r ∈ st.cell_output, r.length = L)

/-- Every element of a `zipWith` comes from a pair of elements of the two
lists. -/
lemma exists_of_mem_zipWith {α β γ : Type} {f : α → β → γ} :
    ∀ {a : List α} {b : List β} {y : γ}, y ∈ List.zipWith f a b →
      ∃ x, x ∈ a ∧ ∃ z, z ∈ b ∧ y = f x z := by
  intro a
  induction a with
  | nil =>
      intro b y hy
      simp at hy
  | cons x xs ih =>
      intro b y hy
      cases b with
      | nil => simp at hy
      | cons z zs =>
          rw [List.zipWith_cons_cons, List.mem_cons] at hy
          rcases hy with hy | hy
          · exact ⟨x, List.mem_cons_self x xs, z, List.mem_cons_self z zs, hy⟩
          · rcases ih hy with ⟨u, hu, v, hv, hy2⟩
            exact ⟨u, List.mem_cons_of_mem x hu, v, List.mem_cons_of_mem z hv, hy2⟩

/-- A gate output has as many entries as the smaller of the gate block and
its bias. -/
lemma gate_length (w : List (List ℚ)) (b : List ℚ) (act : ℚ → ℚ) (z : List ℚ) :
    (gate w b act z).length = min w.length b.length := by
  simp [gate]

/-- An LSTM step on a width-`L` state returns a width-`L` state, for any
input vector. -/
lemma lstmStep_lengths (L : ℕ) (p : LSTMCellParams) (hp : CellShaped L p)
    (x c h : List ℚ) (hc : c.length = L) :
    (lstmStep p x c h).1.length = L ∧ (lstmStep p x c h).2.length = L := by
  obtain ⟨h1, h2, h3, h4, h5, h6, h7, h8⟩ := hp
  constructor
  · simp [lstmStep, gate_length, h1, h2, h3, h4, h5, h6, h7, h8, hc]
  · simp [lstmStep, gate_length, h1, h2, h3, h4, h5, h6, h7, h8, hc]

/-- The decoder cell input has one row per slot whenever the collaborators
respect the shape contract. -/
lemma decoderCellInput_length (N : ℕ) (col : Collaborators) (a : DecoderArgs)
    (hcol : CollabShaped N col) :
    (decoderCellInput col a).length = N := by
  obtain ⟨hh, hpm⟩ := hcol
  unfold decoderCellInput
  cases hcase : col.pooling_module with
  | none => simpa using hh a.frame a.new_coordinates_processed a.coordinates_preprocessed
  | some pm =>
      simp [List.length_zipWith, hh, hpm pm hcase]

/-- `frameStep` preserves the state shape. -/
lemma frameStep_stateShaped (cfg : ModelConfig) (col : Collaborators)
    (inp : ModelInputs) (st : UnrollState) (frame : ℕ)
    (hp : CellShaped cfg.lstm_size cfg.cellParams)
    (hcol : CollabShaped cfg.max_num_ped col)
    (hst : StateShaped cfg.max_num_ped cfg.lstm_size st) :
    StateShaped cfg.max_num_ped cfg.lstm_size (frameStep cfg col inp st frame) := by
  obtain ⟨hsl, hsw, hol, how⟩ := hst
  have hinp : (decoderCellInput col (decoderArgsAt cfg inp st frame)).length =
      cfg.max_num_ped := decoderCellInput_length _ _ _ hcol
  have hargs : (decoderArgsAt cfg inp st frame).cell_states = st.cell_states := rfl
  have hmem : ∀ s ∈ (decoderStep cfg.cellParams (outputLayerOf cfg) col
      (decoderArgsAt cfg inp st frame)).cell_states,
      s.1.length = cfg.lstm_size ∧ s.2.length = cfg.lstm_size := by
    intro s hs
    unfold decoderStep at hs
    simp only at hs
    rcases exists_of_mem_zipWith hs with ⟨x, _, z, hz, hy⟩
    rw [hargs] at hz
    have hzw := hsw z hz
    rw [hy]
    exact lstmStep_lengths cfg.lstm_size cfg.cellParams hp x z.1 z.2 hzw.1
  have hlen : (decoderStep cfg.cellParams (outputLayerOf cfg) col
      (decoderArgsAt cfg inp st frame)).cell_states.length = cfg.max_num_ped := by
    unfold decoderStep
    simp only [List.length_zipWith, hargs]
    rw [hinp, hsl, min_self]
  refine ⟨hlen, hmem, ?_, ?_⟩
  · show (decoderStep cfg.cellParams (outputLayerOf cfg) col
        (decoderArgsAt cfg inp st frame)).cell_output.length = cfg.max_num_ped
    unfold decoderStep
    simp only [List.length_map, List.length_zipWith, hargs]
    rw [hinp, hsl, min_self]
  · intro r hr
    have hr2 : r ∈ (decoderStep cfg.cellParams (outputLayerOf cfg) col
        (decoderArgsAt cfg inp st frame)).cell_states.map (fun q => q.2) := hr
    rcases List.mem_map.mp hr2 with ⟨s, hs, hr3⟩
    rw [← hr3]
    exact (hmem s hs).2

/-- C5: at sequence start the recurrent state and the initial hidden-output
tensor are all-zero with hidden shape `[max_num_ped, lstm_size]`, and under
the shape contracts on the cell parameters and the collaborators this shape
is preserved by every transition of the unroll. -/
theorem C5_zero_init_and_shape_invariance (cfg : ModelConfig)
    (col : Collaborators) (inp : ModelInputs)
    (hp : CellShaped cfg.lstm_size cfg.cellParams)
    (hcol : CollabShaped cfg.max_num_ped col) :
    (initState cfg).cell_output =
        List.replicate cfg.max_num_ped (List.replicate cfg.lstm_size 0) ∧
    (initState cfg).cell_states = zeroState cfg.max_num_ped cfg.lstm_size ∧
    ∀ k, StateShaped cfg.max_num_ped cfg.lstm_size (unrollTo cfg col inp k) := by
  refine ⟨rfl, rfl, ?_⟩
  intro k
  induction k with
  | zero =>
      refine ⟨by simp [unrollTo, initState, zeroState], ?_, ?_, ?_⟩
      · intro s hs
        simp [unrollTo, initState, zeroState] at hs
        simp [hs]
      · simp [unrollTo, initState]
      · intro r hr
        simp [unrollTo, initState] at hr
        simp [hr]
  | succ k ih =>
      rw [unrollTo_succ]
      exact frameStep_stateShaped cfg col inp _ k hp hcol ih

/-- Concrete shape-respecting collaborators for `max_num_ped = 1`: the
helper always returns one row. -/
def testColShaped : Collaborators :=
  { helper := fun _ _ _ => [[0, 0]]
    pooling_module := none
    position_estimate := fun _ next _ _ => (next, next)
    loss_function := fun _ => 0 }

/-- `testColShaped` respects the collaborator shape contract for one slot. -/
lemma testColShaped_shaped : CollabShaped testCfg.max_num_ped testColShaped := by
  constructor
  · intro f prev real
    simp [testColShaped, testCfg]
  · intro pm hpm
    simp [testColShaped] at hpm

/-- Witness for C5 at the concrete test configuration. -/
theorem C5_zero_init_and_shape_invariance_witness :
    CellShaped testCfg.lstm_size testCfg.cellParams ∧
      CollabShaped testCfg.max_num_ped testColShaped ∧
      ∀ k, StateShaped testCfg.max_num_ped testCfg.lstm_size
        (unrollTo testCfg testColShaped testInp k) :=
  ⟨by constructor <;> simp [testCfg, testCellParams],
    testColShaped_shaped,
    (C5_zero_init_and_shape_invariance testCfg testColShaped testInp
      (by constructor <;> simp [testCfg, testCellParams])
      testColShaped_shaped).2.2⟩

/-- The LSTM kernel name does not contain "bias". -/
lemma containsBias_lstm_kernel : containsBias "LSTM/Cell/kernel:0" = false := by
  decide

/-- The LSTM bias name contains "bias". -/
lemma containsBias_lstm_bias : containsBias "LSTM/Cell/bias:0" = true := by
  decide

/-- The coordinates kernel name does not contain "bias". -/
lemma containsBias_coord_kernel :
    containsBias "Coordinates/Layer/kernel:0" = false := by
  decide

/-- The coordinates bias name contains "bias". -/
lemma containsBias_coord_bias : containsBias "Coordinates/Layer/bias:0" = true := by
  decide

/-- The output kernel name does not contain "bias". -/
lemma containsBias_output_kernel :
    containsBias "Position_estimation/Layer/kernel:0" = false := by
  decide

/-- The output bias name contains "bias". -/
lemma containsBias_output_bias :
    containsBias "Position_estimation/Layer/bias:0" = true := by
  decide

/-- C1 (amended): the final training loss equals the external loss function
applied to the stacked predictions restricted to the last `prediction_time`
steps and first `num_peds_frame` slots, divided by `num_peds_frame`, plus a
regularization term equal to `l2_norm` times the sum of `tf.nn.l2_loss`
values — HALF the squared norm — of every trainable tensor whose name does
not contain "bias", i.e. exactly the three kernels. -/
theorem C1_final_loss_formula (cfg : ModelConfig) (col : Collaborators)
    (inp : ModelInputs) :
    (SocialModel cfg col inp).loss =
      col.loss_function
          (lossSlice cfg.prediction_time inp.num_peds_frame
            (SocialModel cfg col inp).new_coordinates) /
          (inp.num_peds_frame : ℚ)
        + (sumSq (cellKernel cfg.cellParams) / 2
            + sumSq cfg.coordinates_kernel.flatten / 2
            + sumSq cfg.output_kernel.flatten / 2) * cfg.l2_norm := by
  rw [socialModel_loss, socialModel_new_coordinates]
  unfold lossAggregate regTerm tvarsOf
  simp only [List.filter, containsBias_lstm_kernel, containsBias_lstm_bias,
    containsBias_coord_kernel, containsBias_coord_bias,
    containsBias_output_kernel, containsBias_output_bias, Bool.not_true,
    Bool.not_false, List.map_cons, List.map_nil, List.sum_cons, List.sum_nil]
  unfold l2_loss sumSq
  ring

/-- The final training loss exactly as claim C1 words it: the
regularization uses the FULL squared norm of each non-bias trainable tensor
instead of `tf.nn.l2_loss`, which is half of it. -/
def claimedLossC1 (cfg : ModelConfig) (col : Collaborators)
    (inp : ModelInputs) : ℚ :=
  col.loss_function
      (lossSlice cfg.prediction_time inp.num_peds_frame
        (SocialModel cfg col inp).new_coordinates) / (inp.num_peds_frame : ℚ)
    + cfg.l2_norm *
        (((tvarsOf cfg).filter (fun v => !containsBias v.1)).map
          (fun v => sumSq v.2)).sum

/-- `testCfg` with `l2_norm = 1` and a single nonzero coordinate weight. -/
def c1Cfg : ModelConfig :=
  { testCfg with l2_norm := 1, coordinates_kernel := [[2, 0]] }

/-- C1 counterexample: with one weight 2 in the coordinates kernel, one
weight 1 in the output kernel and `l2_norm = 1`, the code's loss uses
`tf.nn.l2_loss` (half the squared norm, total 5/2) while the claimed
formula yields the full squared norm (total 5); the two disagree. -/
theorem C1_final_loss_formula_counterexample :
    (SocialModel c1Cfg testCol testInp).loss = 5 / 2 ∧
      claimedLossC1 c1Cfg testCol testInp = 5 ∧
      (SocialModel c1Cfg testCol testInp).loss ≠
        claimedLossC1 c1Cfg testCol testInp := by
  have h1 : (SocialModel c1Cfg testCol testInp).loss = 5 / 2 := by
    rw [socialModel_loss]
    norm_num [lossAggregate, regTerm, tvarsOf, l2_loss, cellKernel, c1Cfg,
      testCfg, testCellParams, testCol, testInp, List.filter,
      containsBias_lstm_kernel, containsBias_lstm_bias,
      containsBias_coord_kernel, containsBias_coord_bias,
      containsBias_output_kernel, containsBias_output_bias]
  have h2 : claimedLossC1 c1Cfg testCol testInp = 5 := by
    unfold claimedLossC1
    norm_num [sumSq, tvarsOf, cellKernel, c1Cfg, testCfg, testCellParams,
      testCol, testInp, List.filter, containsBias_lstm_kernel,
      containsBias_lstm_bias, containsBias_coord_kernel,
      containsBias_coord_bias, containsBias_output_kernel,
      containsBias_output_bias]
  refine ⟨h1, h2, ?_⟩
  rw [h1, h2]
  norm_num

/-- The scenario stub position estimator (spec section 8): returns the real
next coordinate verbatim together with its re-embedding through the shared
coordinates layer. -/
def verbatim_position_estimate :
    List (List ℚ) → List (List ℚ) → ℕ → Dense →
      List (List ℚ) × List (List ℚ) :=
  fun _ next _ layer => (next, layer.applyBatch next)

/-- `input_data[:, 1:, :]` transposed to `[T - 1, N, 2]`. -/
def transposedTail (input : List (List (List ℚ))) (T : ℕ) :
    List (List (List ℚ)) :=
  (List.range (T - 1)).map (fun t => frameSlice input (t + 1))

/-- The scenario collaborators of spec section 8: ground-truth helper, zero
pooling, verbatim position estimate, and an arbitrary loss collaborator. -/
def scenarioCol (lossFn : List (List (List ℚ)) → ℚ) : Collaborators :=
  { helper := ground_truth_helper
    pooling_module := some zeroPool
    position_estimate := verbatim_position_estimate
    loss_function := lossFn }

/-- With the verbatim position estimator, every frame's prediction is the
real next coordinate, so the stacked sequence is the transposed tail of
`input_data` — for any helper, pooling module and parameters. -/
lemma verbatim_predictions (cfg : ModelConfig) (col : Collaborators)
    (inp : ModelInputs)
    (hpe : col.position_estimate = verbatim_position_estimate) :
    (SocialModel cfg col inp).new_coordinates =
      transposedTail inp.input_data cfg.trajectory_size := by
  rw [socialModel_new_coordinates, unroll_new_coordinates]
  unfold transposedTail
  simp only [positionEstimateAt, hpe, verbatim_position_estimate]

/-- C3: with `max_num_ped = 2`, `trajectory_size = 3`, `lstm_size = 4`,
`embedding_size = 3` and the deterministic scenario stubs (helper always
returns ground truth, pooling returns zeros, position estimate returns the
real next coordinate verbatim), the final predicted sequence equals
`input_data[:, 1:, :]` transposed to `[T-1, N, 2]`; with zero
regularization and a loss collaborator that vanishes on the slice of an
exact-match prediction, the training loss is zero. -/
theorem C3_end_to_end_scenario (cfg : ModelConfig)
    (lossFn : List (List (List ℚ)) → ℚ) (inp : ModelInputs)
    (hN : cfg.max_num_ped = 2) (hT : cfg.trajectory_size = 3)
    (hL : cfg.lstm_size = 4) (hE : cfg.embedding_size = 3)
    (hreg : cfg.l2_norm = 0)
    (hloss : lossFn (lossSlice cfg.prediction_time inp.num_peds_frame
        (transposedTail inp.input_data cfg.trajectory_size)) = 0) :
    (SocialModel cfg (scenarioCol lossFn) inp).new_coordinates =
        transposedTail inp.input_data cfg.trajectory_size ∧
      (SocialModel cfg (scenarioCol lossFn) inp).loss = 0 := by
  have hpred := verbatim_predictions cfg (scenarioCol lossFn) inp rfl
  refine ⟨hpred, ?_⟩
  rw [socialModel_loss]
  have hstack : (unrollTo cfg (scenarioCol lossFn) inp
      (cfg.trajectory_size - 1)).new_coordinates =
      transposedTail inp.input_data cfg.trajectory_size := hpred
  rw [hstack]
  unfold lossAggregate regTerm
  rw [show (scenarioCol lossFn).loss_function = lossFn from rfl, hloss, hreg,
    mul_zero, zero_div, zero_add]

/-- Concrete configuration for the C3 scenario sizes. -/
def c3Cfg : ModelConfig :=
  { lstm_size := 4, max_num_ped := 2, prediction_time := 8,
    trajectory_size := 3, embedding_size := 3, l2_norm := 0,
    cellParams := testCellParams,
    coordinates_kernel := [[1, 0], [0, 1], [1, 1]],
    coordinates_bias := [0, 0, 0],
    output_kernel := [[1, 0, 0, 0], [0, 1, 0, 0], [0, 0, 1, 0], [0, 0, 0, 1],
      [1, 1, 1, 1]],
    output_bias := [0, 0, 0, 0, 0] }

/-- Concrete two-slot, three-frame inputs for the C3 scenario. -/
def c3Inp : ModelInputs :=
  { input_data := [[[0, 0], [1, 1], [2, 2]], [[3, 3], [4, 4], [5, 5]]]
    peds_mask := [[[true, true, true], [true, true, true]],
      [[true, true, true], [true, true, true]]]
    num_peds_frame := 2
    all_peds := [[[0, 0], [1, 1], [2, 2]], [[3, 3], [4, 4], [5, 5]]]
    all_peds_mask := [[[true, true, true], [true, true, true]],
      [[true, true, true], [true, true, true]]] }

/-- Witness for C3 at the concrete scenario configuration. -/
theorem C3_end_to_end_scenario_witness :
    (c3Cfg.max_num_ped = 2 ∧ c3Cfg.trajectory_size = 3 ∧ c3Cfg.lstm_size = 4 ∧
        c3Cfg.embedding_size = 3 ∧ c3Cfg.l2_norm = 0) ∧
      (SocialModel c3Cfg (scenarioCol (fun _ => 0)) c3Inp).new_coordinates =
          transposedTail c3Inp.input_data c3Cfg.trajectory_size ∧
        (SocialModel c3Cfg (scenarioCol (fun _ => 0)) c3Inp).loss = 0 :=
  ⟨⟨rfl, rfl, rfl, rfl, rfl⟩,
    C3_end_to_end_scenario c3Cfg (fun _ => 0) c3Inp rfl rfl rfl rfl rfl rfl⟩

/-- A float32 scalar as needed by the division of `model.py` line 159: an
exact finite value, a signed infinity, or NaN.  Rounding is irrelevant for
the division-by-zero behaviour under study. -/
inductive TFFloat where
  | finite (q : ℚ)
  | posInf
  | negInf
  | nan
deriving DecidableEq

/-- IEEE-754 division as performed by `tf.div` on float tensors, restricted
to the finite operands that reach line 159: a nonzero finite value divided
by zero yields a signed infinity, zero by zero yields NaN, and no error is
raised.  Non-finite operands (which cannot arise there) map to NaN. -/
def tfDiv : TFFloat → TFFloat → TFFloat
  | TFFloat.finite a, TFFloat.finite b =>
      if b = 0 then
        (if 0 < a then TFFloat.posInf
         else if a < 0 then TFFloat.negInf else TFFloat.nan)
      else TFFloat.finite (a / b)
  | _, _ => TFFloat.nan

/-- Whether a float value is finite. -/
def TFFloat.isFinite : TFFloat → Bool
  | TFFloat.finite _ => true
  | _ => false

/-- The normalization step of `model.py` line 159,
`tf.div(self.loss, tf.cast(self.num_peds_frame, tf.float32))`, embedded
fallibly: `tf.div` on float tensors never raises on a zero divisor, so the
graph operation always returns a value. -/
def normalizeLoss (l : TFFloat) (num_peds_frame : ℕ) : Except String TFFloat :=
  Except.ok (tfDiv l (TFFloat.finite (num_peds_frame : ℚ)))

/-- Modelled from the spec: the guarded normalization that the claim's
second policy describes — divide only when `num_peds_frame` is nonzero,
otherwise signal the error explicitly. -/
def guardedNormalize (l : TFFloat) (n : ℕ) : Except String TFFloat :=
  if n = 0 then Except.error "division by zero"
  else Except.ok (tfDiv l (TFFloat.finite (n : ℚ)))

/-- C6 (amended): with `num_peds_frame = 0` the normalization neither fails
nor is guarded: the division is performed unconditionally, succeeds, and
returns a non-finite float (a signed infinity for a nonzero loss, NaN for a
zero loss). -/
theorem C6_unguarded_division_by_zero (q : ℚ) :
    ∃ r, normalizeLoss (TFFloat.finite q) 0 = Except.ok r ∧
      r.isFinite = false := by
  refine ⟨tfDiv (TFFloat.finite q) (TFFloat.finite 0), by
    simp [normalizeLoss], ?_⟩
  simp only [tfDiv, eq_self_iff_true, if_true]
  split
  · rfl
  · split
    · rfl
    · rfl

/-- C6 counterexample: at loss 1 and `num_peds_frame = 0`, the code's
normalization returns `+inf` as an ordinary (non-error) value — so it
neither fails with a division-by-zero error nor behaves like the guarded
variant. -/
theorem C6_policy_counterexample :
    normalizeLoss (TFFloat.finite 1) 0 = Except.ok TFFloat.posInf ∧
      TFFloat.posInf.isFinite = false ∧
      normalizeLoss (TFFloat.finite 1) 0 ≠ guardedNormalize (TFFloat.finite 1) 0 := by
  have h1 : normalizeLoss (TFFloat.finite 1) 0 = Except.ok TFFloat.posInf := by
    norm_num [normalizeLoss, tfDiv]
  have h2 : guardedNormalize (TFFloat.finite 1) 0 =
      Except.error "division by zero" := by
    simp [guardedNormalize]
  refine ⟨h1, rfl, ?_⟩
  rw [h1, h2]
  exact fun h => Except.noConfusion h

end SocialLSTM
